import Mathlib

/-!
# Verification of the CoveyTown frontend area controllers

A shallow embedding of the browser-side state-synchronization layer:
`ConversationAreaController` (topic + occupant-list state, emits
`topicChange` / `occupantsChange`), `ViewingAreaController` (video URL,
elapsed time, playing flag, emits `videoChange` / `progressChange` /
`playbackChange`), and the `ViewingAreaVideo` drift-tolerant seek handler.

JavaScript object reference identity is modelled by tagging each heap
allocation with a `Nat` reference: two allocations are the same object
exactly when they carry the same tag, and the embedding never rebuilds a
tagged value, so structural equality of tagged values tracks `===`.
Stateful setters are embedded as pure functions returning the updated
controller together with the list of events emitted during the call
(the event trace); Node's `EventEmitter.emit` delivers synchronously to
the currently registered listeners in registration order, which is
modelled by `deliverEvents`.
-/

/-- A `PlayerController` reference: `ref` is the object identity
(distinct live objects carry distinct `ref` tags), `id` the player ID
read by `toConversationAreaModel`. -/
structure PlayerController where
  ref : Nat
  id : String
deriving DecidableEq, Repr

/-- A JavaScript array of `PlayerController` references: `ref` is the
array object's own identity, `elems` its contents.  The occupants setter
stores the incoming array by reference, so identity must be tracked. -/
structure OccList where
  ref : Nat
  elems : List PlayerController
deriving DecidableEq, Repr

/-- The wire-shape `ConversationArea` model:
`{id, topic, occupantsByID}`. `topic` is `string | undefined`. -/
structure ConversationAreaModel where
  id : String
  topic : Option String
  occupantsByID : List String
deriving DecidableEq, Repr

/-- The events a `ConversationAreaController` emits. -/
inductive ConvEvent where
  | topicChange (newTopic : Option String)
  | occupantsChange (newOccupants : OccList)
deriving DecidableEq, Repr

/-- The mutable state of a `ConversationAreaController`:
`_id : string`, `_topic : string | undefined`,
`_occupants : PlayerController[]`. -/
structure ConversationAreaController where
  _id : String
  _topic : Option String
  _occupants : OccList
deriving DecidableEq, Repr

namespace ConversationAreaController

/-- `constructor(id, topic?)`: stores the id and topic and allocates a
fresh empty occupants array; `freshRef` names that allocation. -/
def init (id : String) (topic : Option String) (freshRef : Nat) :
    ConversationAreaController :=
  { _id := id, _topic := topic, _occupants := { ref := freshRef, elems := [] } }

/-- `get id()`. -/
def id (c : ConversationAreaController) : String := c._id

/-- `get topic()`. -/
def topic (c : ConversationAreaController) : Option String := c._topic

/-- `get occupants()`: returns the stored array reference. -/
def occupants (c : ConversationAreaController) : OccList := c._occupants

/-- `_isSameOccupantsList(newOccupants)`: if the lengths agree, builds a
`Set` of the current occupants and returns `false` as soon as some
element of `newOccupants` is missing from it, `true` after the loop;
returns `false` when the lengths differ.  `Set.has` compares by
reference. -/
def _isSameOccupantsList (c : ConversationAreaController)
    (newOccupants : List PlayerController) : Bool :=
  if c.occupants.elems.length = newOccupants.length then
    newOccupants.all (fun player => c.occupants.elems.contains player)
  else
    false

/-- `set occupants(newOccupants)`: when `_isSameOccupantsList` rejects
the new array, stores it by reference and emits
`occupantsChange(this._occupants)`; otherwise does nothing. -/
def setOccupants (c : ConversationAreaController) (newOccupants : OccList) :
    ConversationAreaController × List ConvEvent :=
  if c._isSameOccupantsList newOccupants.elems then
    (c, [])
  else
    ({ c with _occupants := newOccupants },
      [ConvEvent.occupantsChange newOccupants])

/-- `set topic(newTopic)`: compares with `!==` (value comparison on
`string | undefined`); on change stores the value and emits
`topicChange(this._topic)`. -/
def setTopic (c : ConversationAreaController) (newTopic : Option String) :
    ConversationAreaController × List ConvEvent :=
  if c._topic ≠ newTopic then
    ({ c with _topic := newTopic }, [ConvEvent.topicChange newTopic])
  else
    (c, [])

/-- `isEmpty()`: `this._topic === undefined || this._occupants.length === 0`. -/
def isEmpty (c : ConversationAreaController) : Bool :=
  c._topic == none || c._occupants.elems.length == 0

/-- `toConversationAreaModel()`: projects
`{id: this._id, topic: this._topic,
occupantsByID: this._occupants.map(o => o.id)}`. -/
def toConversationAreaModel (c : ConversationAreaController) :
    ConversationAreaModel :=
  { id := c._id, topic := c._topic,
    occupantsByID := c._occupants.elems.map PlayerController.id }

/-- `static fromConversationAreaModel(convAreaModel, playerFinder)`:
constructs a controller from `model.id` / `model.topic` (allocating a
fresh empty occupants array named `freshRef`), then assigns
`playerFinder(model.occupantsByID)` through the occupants setter.  The
returned trace holds the events emitted during the factory call, before
the caller can have registered any listener. -/
def fromConversationAreaModel (m : ConversationAreaModel)
    (playerFinder : List String → OccList) (freshRef : Nat) :
    ConversationAreaController × List ConvEvent :=
  (init m.id m.topic freshRef).setOccupants (playerFinder m.occupantsByID)

/-- `fromConversationAreaModel` with a fallible `playerFinder`: the
finder call is the only sub-step of the factory that can propagate an
exception, every other operation on the path (constructor, setter,
`Set` and array operations, `emit`) being total. -/
def fromConversationAreaModelE (m : ConversationAreaModel)
    (playerFinder : List String → Except String OccList) (freshRef : Nat) :
    Except String (ConversationAreaController × List ConvEvent) := do
  let ps ← playerFinder m.occupantsByID
  return (init m.id m.topic freshRef).setOccupants ps

end ConversationAreaController

/-- Node's `EventEmitter.emit` delivers each event of a trace
synchronously to every currently registered listener, in registration
order. -/
def deliverEvents {α : Type} (listeners : List (ConvEvent → α))
    (events : List ConvEvent) : List α :=
  events.flatMap (fun e => listeners.map (fun f => f e))

/-- C1: assigning a permutation of the current occupant list is an
identity-preserving no-op: the controller (hence the stored array
reference returned by the getter) is unchanged and the event trace is
empty. -/
theorem setOccupants_perm_noop (c : ConversationAreaController)
    (newOccupants : OccList)
    (h : c.occupants.elems.Perm newOccupants.elems) :
    c.setOccupants newOccupants = (c, []) := by
  have hsame : c._isSameOccupantsList newOccupants.elems = true := by
    unfold ConversationAreaController._isSameOccupantsList
    rw [if_pos h.length_eq]
    rw [List.all_eq_true]
    intro p hp
    exact List.elem_eq_true_of_mem (h.mem_iff.mpr hp)
  unfold ConversationAreaController.setOccupants
  rw [hsame]
  simp

/-- Concrete sample players used in witnesses and counterexamples. -/
def samplePlayer0 : PlayerController := ⟨0, "p0"⟩

def samplePlayer1 : PlayerController := ⟨1, "p1"⟩

def samplePlayer2 : PlayerController := ⟨2, "p2"⟩

/-- A concrete three-occupant conversation area with a topic set. -/
def sampleArea : ConversationAreaController :=
  ⟨"area1", some "music", ⟨10, [samplePlayer0, samplePlayer1, samplePlayer2]⟩⟩

/-- C1 witness: a concrete three-player area where the reordered list
`[p2, p0, p1]` is stored-list `[p0, p1, p2]` permuted; the setter
returns the controller unchanged with an empty trace. -/
theorem setOccupants_perm_noop_witness :
    sampleArea.setOccupants ⟨11, [samplePlayer2, samplePlayer0, samplePlayer1]⟩
      = (sampleArea, []) :=
  setOccupants_perm_noop _ _ (by decide)

/-- A concrete two-occupant area used to exhibit the duplicate-reference
behavior of the occupants setter. -/
def dupArea : ConversationAreaController :=
  ⟨"area2", some "chess", ⟨20, [samplePlayer0, samplePlayer1]⟩⟩

/-- The list `[p0, p0]`: same length as `dupArea`'s `[p0, p1]` but
different membership (it lacks `p1`). -/
def dupList : OccList := ⟨21, [samplePlayer0, samplePlayer0]⟩

/-- C2 counterexample: with current occupants `[p0, p1]`, assigning
`[p0, p0]` — same length, different membership — is treated as
unchanged: nothing is stored (the stored array is not the new one) and
no event is emitted, contradicting the claim that such an assignment
stores the list and fires `occupantsChange`. -/
theorem setOccupants_dup_counterexample :
    dupArea.setOccupants dupList = (dupArea, []) ∧
      (dupArea.setOccupants dupList).1.occupants ≠ dupList := by
  decide

/-- C2 amended: assigning a list whose length differs from the current
list's, or containing a reference absent from the current list, stores
the new list by reference and emits `occupantsChange` exactly once
carrying it.  (A same-length list all of whose elements occur in the
current list is treated as unchanged, even when membership differs
because of duplicated references.) -/
theorem setOccupants_change_stores_and_emits (c : ConversationAreaController)
    (newOccupants : OccList)
    (h : newOccupants.elems.length ≠ c.occupants.elems.length ∨
      ∃ p ∈ newOccupants.elems, p ∉ c.occupants.elems) :
    c.setOccupants newOccupants =
      ({ c with _occupants := newOccupants },
        [ConvEvent.occupantsChange newOccupants]) := by
  have hsame : c._isSameOccupantsList newOccupants.elems = false := by
    unfold ConversationAreaController._isSameOccupantsList
    rcases h with h | ⟨p, hp, hnp⟩
    · rw [if_neg (fun he => h he.symm)]
    · by_cases hl : c.occupants.elems.length = newOccupants.elems.length
      · rw [if_pos hl]
        rw [List.all_eq_false]
        refine ⟨p, hp, ?_⟩
        exact fun hc => hnp (List.mem_of_elem_eq_true hc)
      · rw [if_neg hl]
  unfold ConversationAreaController.setOccupants
  rw [hsame]
  simp

/-- C2 witness: assigning the empty list (length 0 versus 3) to the
sample area stores it and emits exactly one `occupantsChange`. -/
theorem setOccupants_change_stores_and_emits_witness :
    sampleArea.setOccupants ⟨30, []⟩ =
      (⟨"area1", some "music", ⟨30, []⟩⟩,
        [ConvEvent.occupantsChange ⟨30, []⟩]) :=
  setOccupants_change_stores_and_emits sampleArea ⟨30, []⟩ (Or.inl (by decide))

/-- C5: setting `topic` to the current value mutates nothing and emits
nothing; setting it to a different value `v` (in either direction
to/from absent) stores `v`, a read of `topic` then returns `v`, and the
trace is exactly one `topicChange v`, delivered synchronously to every
current subscriber in subscription order. -/
theorem setTopic_spec (c : ConversationAreaController) (v : Option String) :
    (v = c.topic → c.setTopic v = (c, [])) ∧
    (v ≠ c.topic →
      c.setTopic v = ({ c with _topic := v }, [ConvEvent.topicChange v]) ∧
      (c.setTopic v).1.topic = v ∧
      ∀ (ls : List (ConvEvent → Nat)),
        deliverEvents ls (c.setTopic v).2 =
          ls.map (fun f => f (ConvEvent.topicChange v))) := by
  constructor
  · intro hv
    unfold ConversationAreaController.setTopic
    rw [if_neg]
    simp only [ConversationAreaController.topic] at hv
    simp [hv]
  · intro hv
    simp only [ConversationAreaController.topic] at hv
    have hstep : c.setTopic v =
        ({ c with _topic := v }, [ConvEvent.topicChange v]) := by
      unfold ConversationAreaController.setTopic
      rw [if_pos (fun he => hv (he.symm))]
    refine ⟨hstep, ?_, ?_⟩
    · rw [hstep]
      rfl
    · intro ls
      rw [hstep]
      simp [deliverEvents]

/-- C5 witness: changing the sample area's topic from `"music"` to
`"films"` stores the new topic and emits one `topicChange "films"`,
delivered once to a concrete subscriber list. -/
theorem setTopic_spec_witness :
    sampleArea.setTopic (some "films") =
        (⟨"area1", some "films",
          ⟨10, [samplePlayer0, samplePlayer1, samplePlayer2]⟩⟩,
          [ConvEvent.topicChange (some "films")]) ∧
      sampleArea.setTopic (some "music") = (sampleArea, []) := by
  have h := setTopic_spec sampleArea (some "films")
  have h0 := setTopic_spec sampleArea (some "music")
  exact ⟨(h.2 (by decide)).1, h0.1 (by decide)⟩

/-- C7: `isEmpty` returns `true` exactly when the topic is absent or
the occupant list has length zero; it is a pure predicate of the state
(its embedding reads the controller and returns a `Bool`, with no state
or trace output). -/
theorem conversationArea_isEmpty_iff (c : ConversationAreaController) :
    c.isEmpty = true ↔ (c.topic = none ∨ c.occupants.elems.length = 0) := by
  simp [ConversationAreaController.isEmpty, ConversationAreaController.topic,
    ConversationAreaController.occupants]

/-- The occupants setter never touches the id or topic fields. -/
theorem setOccupants_preserves_id_topic (c : ConversationAreaController)
    (o : OccList) :
    ((c.setOccupants o).1)._id = c._id ∧ ((c.setOccupants o).1)._topic = c._topic := by
  unfold ConversationAreaController.setOccupants
  split <;> simp

/-- When the current occupants array is empty, the setter leaves the
stored contents equal to the incoming contents: an incoming empty array
is rejected as "same" (contents stay `[]`), a non-empty one is stored. -/
theorem setOccupants_from_empty_elems (c : ConversationAreaController)
    (o : OccList) (h : c._occupants.elems = []) :
    ((c.setOccupants o).1)._occupants.elems = o.elems := by
  unfold ConversationAreaController.setOccupants
  unfold ConversationAreaController._isSameOccupantsList
  simp only [ConversationAreaController.occupants, h]
  cases ho : o.elems with
  | nil => simp [ho, h]
  | cons a as => simp [ho]

/-- C6: a controller built by `fromConversationAreaModel` from model `m`
with a `playerFinder` resolving each ID of `m.occupantsByID`, in order,
to a player bearing that ID projects back (via
`toConversationAreaModel`) to exactly `m`; and on every controller state
`toConversationAreaModel` is the pure projection of the current id,
topic and occupant IDs in stored order. -/
theorem fromModel_toModel_roundtrip (m : ConversationAreaModel)
    (playerFinder : List String → OccList) (freshRef : Nat)
    (h : (playerFinder m.occupantsByID).elems.map PlayerController.id =
      m.occupantsByID) :
    ((ConversationAreaController.fromConversationAreaModel m playerFinder
        freshRef).1).toConversationAreaModel = m ∧
    ∀ c : ConversationAreaController,
      c.toConversationAreaModel = ⟨c.id, c.topic,
        c.occupants.elems.map PlayerController.id⟩ := by
  constructor
  · unfold ConversationAreaController.fromConversationAreaModel
    have hel := setOccupants_from_empty_elems
      (ConversationAreaController.init m.id m.topic freshRef)
      (playerFinder m.occupantsByID) rfl
    have hit := setOccupants_preserves_id_topic
      (ConversationAreaController.init m.id m.topic freshRef)
      (playerFinder m.occupantsByID)
    obtain ⟨mid, mtopic, mocc⟩ := m
    unfold ConversationAreaController.toConversationAreaModel
    simp only [ConversationAreaController.init] at hit hel ⊢
    rw [hit.1, hit.2, hel]
    simpa using h
  · intro c
    rfl

/-- C6 witness: a concrete model with two occupant IDs and a finder
returning matching players round-trips to the same model. -/
theorem fromModel_toModel_roundtrip_witness :
    ((ConversationAreaController.fromConversationAreaModel
        ⟨"a3", some "t", ["p0", "p1"]⟩
        (fun _ => ⟨40, [samplePlayer0, samplePlayer1]⟩)
        41).1).toConversationAreaModel = ⟨"a3", some "t", ["p0", "p1"]⟩ :=
  (fromModel_toModel_roundtrip ⟨"a3", some "t", ["p0", "p1"]⟩
    (fun _ => ⟨40, [samplePlayer0, samplePlayer1]⟩) 41 (by decide)).1

/-- C9: the only operation of `ConversationAreaController` composed
from an external callable is the static factory; when the supplied
`playerFinder` itself returns normally, the factory returns normally and
computes exactly the total-function factory's result.  Every other
operation (constructor, getters, setters, `isEmpty`,
`toConversationAreaModel`) is embedded as a total function on all
states — including malformed ones such as duplicate IDs in
`occupantsByID`, which no operation validates. -/
theorem fromConversationAreaModelE_no_throw (m : ConversationAreaModel)
    (playerFinder : List String → Except String OccList) (freshRef : Nat)
    (ps : OccList) (h : playerFinder m.occupantsByID = Except.ok ps) :
    ConversationAreaController.fromConversationAreaModelE m playerFinder
        freshRef =
      Except.ok (ConversationAreaController.fromConversationAreaModel m
        (fun _ => ps) freshRef) := by
  unfold ConversationAreaController.fromConversationAreaModelE
  unfold ConversationAreaController.fromConversationAreaModel
  rw [h]
  rfl

/-- C9 witness: a model with duplicated occupant IDs (malformed input)
still constructs without an exception. -/
theorem fromConversationAreaModelE_no_throw_witness :
    ConversationAreaController.fromConversationAreaModelE
        ⟨"a4", none, ["p0", "p0"]⟩
        (fun _ => Except.ok ⟨50, [samplePlayer0, samplePlayer0]⟩) 51 =
      Except.ok (ConversationAreaController.fromConversationAreaModel
        ⟨"a4", none, ["p0", "p0"]⟩
        (fun _ => ⟨50, [samplePlayer0, samplePlayer0]⟩) 51) :=
  fromConversationAreaModelE_no_throw ⟨"a4", none, ["p0", "p0"]⟩
    (fun _ => Except.ok ⟨50, [samplePlayer0, samplePlayer0]⟩) 51
    ⟨50, [samplePlayer0, samplePlayer0]⟩ rfl

/-- C10: inside `fromConversationAreaModel`, when the finder returns a
non-empty array the controller stores that very array (read-back is
reference-identical) and the factory's trace is exactly one
`occupantsChange` with it — emitted before the caller could register a
listener, since it is produced within the factory call; when the finder
returns an empty array, the stored occupants remains the constructor's
own fresh allocation `⟨freshRef, []⟩`, the finder's array is discarded,
and the trace is empty. -/
theorem fromModel_occupants_cases (m : ConversationAreaModel)
    (playerFinder : List String → OccList) (freshRef : Nat) :
    ((playerFinder m.occupantsByID).elems ≠ [] →
      (ConversationAreaController.fromConversationAreaModel m playerFinder
        freshRef).1.occupants = playerFinder m.occupantsByID ∧
      (ConversationAreaController.fromConversationAreaModel m playerFinder
        freshRef).2 =
        [ConvEvent.occupantsChange (playerFinder m.occupantsByID)]) ∧
    ((playerFinder m.occupantsByID).elems = [] →
      (ConversationAreaController.fromConversationAreaModel m playerFinder
        freshRef).1.occupants = ⟨freshRef, []⟩ ∧
      (ConversationAreaController.fromConversationAreaModel m playerFinder
        freshRef).2 = []) := by
  unfold ConversationAreaController.fromConversationAreaModel
  unfold ConversationAreaController.setOccupants
  unfold ConversationAreaController._isSameOccupantsList
  constructor
  · intro hne
    cases ho : (playerFinder m.occupantsByID).elems with
    | nil => exact absurd ho hne
    | cons a as =>
      simp [ConversationAreaController.occupants,
        ConversationAreaController.init, ho]
  · intro hnil
    simp [ConversationAreaController.occupants,
      ConversationAreaController.init, hnil]

/-- C10 witness: with a finder returning `⟨60, [p0]⟩` the factory stores
that array and emits once; with a finder returning the empty array
`⟨61, []⟩` the stored occupants is the constructor's `⟨62, []⟩` and
nothing is emitted. -/
theorem fromModel_occupants_cases_witness :
    ((ConversationAreaController.fromConversationAreaModel
        ⟨"a5", some "t5", ["p0"]⟩ (fun _ => ⟨60, [samplePlayer0]⟩)
        63).1.occupants = ⟨60, [samplePlayer0]⟩ ∧
      (ConversationAreaController.fromConversationAreaModel
        ⟨"a5", some "t5", ["p0"]⟩ (fun _ => ⟨60, [samplePlayer0]⟩)
        63).2 = [ConvEvent.occupantsChange ⟨60, [samplePlayer0]⟩]) ∧
    ((ConversationAreaController.fromConversationAreaModel
        ⟨"a6", some "t6", []⟩ (fun _ => ⟨61, []⟩)
        62).1.occupants = ⟨62, []⟩ ∧
      (ConversationAreaController.fromConversationAreaModel
        ⟨"a6", some "t6", []⟩ (fun _ => ⟨61, []⟩) 62).2 = []) :=
  ⟨(fromModel_occupants_cases ⟨"a5", some "t5", ["p0"]⟩
      (fun _ => ⟨60, [samplePlayer0]⟩) 63).1 (by decide),
    (fromModel_occupants_cases ⟨"a6", some "t6", []⟩
      (fun _ => ⟨61, []⟩) 62).2 (by decide)⟩

/-- The wire-shape `ViewingArea` model:
`{id, isPlaying, elapsedTimeSec, video}`.  JavaScript numbers are
modelled as rationals; `video` is `string | undefined`. -/
structure ViewingAreaModel where
  id : String
  isPlaying : Bool
  elapsedTimeSec : ℚ
  video : Option String
deriving DecidableEq, Repr

/-- The events a `ViewingAreaController` emits. -/
inductive ViewEvent where
  | playbackChange (isPlaying : Bool)
  | progressChange (elapsedTimeSec : ℚ)
  | videoChange (video : Option String)
deriving DecidableEq, Repr

/-- The state of a `ViewingAreaController`: one immutable id and three
mutable playback fields. -/
structure ViewingAreaController where
  _id : String
  _isPlaying : Bool
  _elapsedTimeSec : ℚ
  _video : Option String
deriving DecidableEq, Repr

namespace ViewingAreaController

/-- Modelled from the spec: the constructor body is an unimplemented
stub in the source ("Unimplemented: Task 2"); per the spec the
controller is "constructed from a full snapshot model" and its id is
"immutable identity, set at construction". -/
def init (m : ViewingAreaModel) : ViewingAreaController :=
  ⟨m.id, m.isPlaying, m.elapsedTimeSec, m.video⟩

/-- Modelled from the spec: `get id` is an unimplemented stub in the
source; per the spec it returns the identity bound at construction. -/
def id (v : ViewingAreaController) : String := v._id

/-- Modelled from the spec: `get isPlaying` (stub in the source)
returns the stored playback flag. -/
def isPlaying (v : ViewingAreaController) : Bool := v._isPlaying

/-- Modelled from the spec: `get elapsedTimeSec` (stub in the source)
returns the stored playback position. -/
def elapsedTimeSec (v : ViewingAreaController) : ℚ := v._elapsedTimeSec

/-- Modelled from the spec: `get video` (stub in the source) returns
the stored video URL or absent. -/
def video (v : ViewingAreaController) : Option String := v._video

/-- Modelled from the spec: `set isPlaying(p)` is an unimplemented stub
in the source; per the spec it compares by boolean equality, is a no-op
when equal, and otherwise stores the value and emits
`playbackChange(p)`. -/
def setIsPlaying (v : ViewingAreaController) (p : Bool) :
    ViewingAreaController × List ViewEvent :=
  if v._isPlaying = p then (v, [])
  else ({ v with _isPlaying := p }, [ViewEvent.playbackChange p])

/-- Modelled from the spec: `set elapsedTimeSec(t)` is an unimplemented
stub in the source; per the spec equality is exact numeric equality
with no epsilon, a no-op when equal, otherwise store and emit
`progressChange(t)`. -/
def setElapsedTimeSec (v : ViewingAreaController) (t : ℚ) :
    ViewingAreaController × List ViewEvent :=
  if v._elapsedTimeSec = t then (v, [])
  else ({ v with _elapsedTimeSec := t }, [ViewEvent.progressChange t])

/-- Modelled from the spec: `set video(u)` is an unimplemented stub in
the source; per the spec equality is value equality over
`string | undefined` (absent-to-absent a no-op), otherwise store and
emit `videoChange(u)`. -/
def setVideo (v : ViewingAreaController) (u : Option String) :
    ViewingAreaController × List ViewEvent :=
  if v._video = u then (v, [])
  else ({ v with _video := u }, [ViewEvent.videoChange u])

/-- `updateFrom(updatedModel)` — implemented in the source: applies the
three setters in the fixed order isPlaying, elapsedTimeSec, video,
never reading `updatedModel.id`.  The trace concatenates whatever each
setter emitted. -/
def updateFrom (v : ViewingAreaController) (m : ViewingAreaModel) :
    ViewingAreaController × List ViewEvent :=
  let r1 := v.setIsPlaying m.isPlaying
  let r2 := r1.1.setElapsedTimeSec m.elapsedTimeSec
  let r3 := r2.1.setVideo m.video
  (r3.1, r1.2 ++ r2.2 ++ r3.2)

/-- Modelled from the spec: `viewingAreaModel()` (stub in the source)
is the pure projection `{id, isPlaying, elapsedTimeSec, video}` of the
current state. -/
def viewingAreaModel (v : ViewingAreaController) : ViewingAreaModel :=
  ⟨v._id, v._isPlaying, v._elapsedTimeSec, v._video⟩

end ViewingAreaController

/-- C3: `updateFrom(model)` leaves the controller with exactly the
model's isPlaying, elapsedTimeSec and video (the three setters are
applied in that fixed order by definition of `updateFrom`), and the id
is unchanged for every model — in particular when `model.id` differs
from the controller's id. -/
theorem updateFrom_sets_fields_preserves_id (v : ViewingAreaController)
    (m : ViewingAreaModel) :
    (v.updateFrom m).1.isPlaying = m.isPlaying ∧
    (v.updateFrom m).1.elapsedTimeSec = m.elapsedTimeSec ∧
    (v.updateFrom m).1.video = m.video ∧
    (v.updateFrom m).1.id = v.id := by
  have hplay : ∀ (w : ViewingAreaController) (p : Bool),
      (w.setIsPlaying p).1 = { w with _isPlaying := p } := by
    intro w p
    unfold ViewingAreaController.setIsPlaying
    split
    · next h => rw [← h]
    · rfl
  have htime : ∀ (w : ViewingAreaController) (t : ℚ),
      (w.setElapsedTimeSec t).1 = { w with _elapsedTimeSec := t } := by
    intro w t
    unfold ViewingAreaController.setElapsedTimeSec
    split
    · next h => rw [← h]
    · rfl
  have hvid : ∀ (w : ViewingAreaController) (u : Option String),
      (w.setVideo u).1 = { w with _video := u } := by
    intro w u
    unfold ViewingAreaController.setVideo
    split
    · next h => rw [← h]
    · rfl
  unfold ViewingAreaController.updateFrom
  simp only [hplay, htime, hvid]
  exact ⟨rfl, rfl, rfl, rfl⟩

/-- C4: setting each of video, elapsedTimeSec and isPlaying to its
current value (absent-to-absent included for video, exact numeric
equality for elapsedTimeSec, boolean equality for isPlaying) leaves the
state unchanged and emits nothing; each setter is a total function, so
the call completes without an exception. -/
theorem set_current_value_noop (v : ViewingAreaController) :
    v.setVideo v.video = (v, []) ∧
    v.setElapsedTimeSec v.elapsedTimeSec = (v, []) ∧
    v.setIsPlaying v.isPlaying = (v, []) := by
  unfold ViewingAreaController.setVideo ViewingAreaController.setElapsedTimeSec
  unfold ViewingAreaController.setIsPlaying
  unfold ViewingAreaController.video ViewingAreaController.elapsedTimeSec
  unfold ViewingAreaController.isPlaying
  simp

/-- `const ALLOWED_DRIFT = 3` from the `ViewingAreaVideo` component. -/
def ALLOWED_DRIFT : ℚ := 3

/-- `updateTimecode(newTime)`, the `progressChange` subscription of
`ViewingAreaVideo`, at a mounted player reporting `currentTime`: seeks
to `newTime` when `newTime > currentTime + ALLOWED_DRIFT`, else seeks
to `newTime` when `newTime < currentTime - ALLOWED_DRIFT`, else does
not seek.  The result is the seek target issued, if any. -/
def updateTimecode (newTime currentTime : ℚ) : Option ℚ :=
  if newTime > currentTime + ALLOWED_DRIFT then some newTime
  else if newTime < currentTime - ALLOWED_DRIFT then some newTime
  else none

/-- C8: the handler seeks exactly when the absolute difference between
the event's new time and the player's current time strictly exceeds the
3-second drift tolerance, and then the seek target is the new time; at
current time 10 the boundary value 13 triggers no seek while 13.01
seeks to 13.01. -/
theorem updateTimecode_drift_tolerance (t c : ℚ) :
    ((updateTimecode t c).isSome = true ↔ |t - c| > ALLOWED_DRIFT) ∧
    (|t - c| > ALLOWED_DRIFT → updateTimecode t c = some t) ∧
    updateTimecode 13 10 = none ∧
    updateTimecode (1301 / 100) 10 = some (1301 / 100) := by
  have key : updateTimecode t c =
      if |t - c| > ALLOWED_DRIFT then some t else none := by
    unfold updateTimecode ALLOWED_DRIFT
    by_cases h1 : t > c + 3
    · rw [if_pos h1, if_pos (by rw [gt_iff_lt, lt_abs]; left; linarith)]
    · by_cases h2 : t < c - 3
      · rw [if_neg h1, if_pos h2,
          if_pos (by rw [gt_iff_lt, lt_abs]; right; linarith)]
      · rw [if_neg h1, if_neg h2, if_neg]
        rw [gt_iff_lt, lt_abs]
        push_neg
        constructor <;> linarith
  refine ⟨?_, ?_, ?_, ?_⟩
  · rw [key]
    constructor
    · intro hs
      by_contra hd
      rw [if_neg hd] at hs
      exact Bool.noConfusion hs
    · intro hd
      rw [if_pos hd]
      rfl
  · intro hd
    rw [key, if_pos hd]
  · unfold updateTimecode ALLOWED_DRIFT
    norm_num
  · unfold updateTimecode ALLOWED_DRIFT
    norm_num
